import Mathlib

/-!
Shallow embedding of the thin-provisioning lifecycle manager from
`src/Rust/devmapper-demo/src/main.rs`.

The Rust program drives external block-storage tooling (`losetup`,
`fallocate`, `blockdev`, `thin_restore`, `dmsetup`) through `std::process::Command`.
We embed each operation as a pure Lean function parameterised by an
environment record that fixes the outcome of every external call the
operation makes, and returning, alongside the `Except` result, the ordered
trace of external side-effecting invocations the operation performed
before returning.  Rust's `Drop`-driven cleanup is made explicit on every
error path, in the order Rust runs destructors (reverse declaration order).
-/

namespace DevMapper

/-- Outcome of one `std::process::Command` invocation as the Rust code
observes it: either the process could not be run at all (the io error that
`.context(...)?` propagates), or it ran and exited with success (`true`) or
failure (`false`). -/
inductive CmdResult where
  | spawnErr : CmdResult
  | exit : Bool → CmdResult
deriving DecidableEq, Repr

/-- External side-effecting invocations, in the order the program issues
them.  Pure queries that only produce a value the program consumes
(`losetup -f`, `blockdev --getsize64`, `blockdev --getsz`) are recorded
too, so a trace is the complete interaction of one call with the outside
world. -/
inductive Event where
  | removeFile : String → Event
  | createFile : String → Event
  | fallocate : String → Nat → Event
  | losetupFind : Event
  | losetupAttach : String → String → Event
  | blockdevGetSize64 : String → Event
  | blockdevGetSz : String → Event
  | losetupDetach : String → Event
  | writeFile : String → String → Event
  | thinRestore : String → String → Event
  | dmsetupCreate : String → String → Event
  | dmsetupMessage : String → String → Event
  | dmsetupRemove : String → Event
  | warning : String → Event
deriving DecidableEq, Repr

/-- The `anyhow` error values, one constructor per distinct bail/propagation
site the embedded operations can return through. -/
inductive RError where
  | backingFileCreate : String → RError
  | fallocateSpawn : RError
  | fallocateFailed : RError
  | findFreeSpawn : RError
  | findFreeFailed : RError
  | attachSpawn : RError
  | attachFailed : RError
  | sizeQueryFailed : RError
  | sizeMismatch : Nat → Nat → RError
  | detachSpawn : RError
  | detachFailed : String → RError
  | metadataXmlWrite : RError
  | thinRestoreSpawn : RError
  | thinRestoreFailed : RError
  | dataSizeQueryFailed : RError
  | dmCreateSpawn : RError
  | dmCreateFailed : String → RError
  | messageSpawn : RError
  | messageFailed : Nat → RError
  | snapMessageSpawn : RError
  | snapMessageFailed : Nat → RError
  | poolRemoveSpawn : RError
  | poolRemoveFailed : String → RError
  | volRemoveSpawn : RError
  | volRemoveFailed : String → RError
  | deleteMessageSpawn : RError
deriving DecidableEq, Repr

/-- Embeds `struct LoopDevice`: a loop device presenting a file as a block
device. -/
structure LoopDevice where
  device_path : String
  backing_file : String
  should_cleanup : Bool
deriving DecidableEq, Repr

/-- Outcomes of the external calls `LoopDevice::create` makes, in program
order: `std::fs::File::create`, `fallocate`, `losetup -f` (with the device
path it prints), `losetup <dev> <file>`, and the `blockdev --getsize64`
query (`none` when the spawn, UTF-8 decoding or parse fails, `some n` for
a parsed size of `n` bytes). -/
structure LoopEnv where
  createFileOk : Bool
  fallocateRes : CmdResult
  findRes : CmdResult
  freeDevice : String
  attachRes : CmdResult
  sizeQuery : Option Nat
deriving DecidableEq, Repr

/-- Embeds `LoopDevice::create(backing_file, size_mb)`: creates and fallocates the
backing file, finds a free loop device, attaches it, then verifies the
reported size; a size mismatch bails *without* detaching (no `LoopDevice`
value exists yet, so `Drop` cannot run either). -/
def LoopDevice.create (backing_file : String) (size_mb : Nat) (env : LoopEnv) :
    Except RError LoopDevice × List Event :=
  let size_bytes := size_mb * 1024 * 1024
  let t0 := [Event.createFile backing_file]
  if !env.createFileOk then (.error (.backingFileCreate backing_file), t0)
  else
    let t1 := t0 ++ [Event.fallocate backing_file size_bytes]
    match env.fallocateRes with
    | .spawnErr => (.error .fallocateSpawn, t1)
    | .exit false => (.error .fallocateFailed, t1)
    | .exit true =>
      let t2 := t1 ++ [Event.losetupFind]
      match env.findRes with
      | .spawnErr => (.error .findFreeSpawn, t2)
      | .exit false => (.error .findFreeFailed, t2)
      | .exit true =>
        let device_path := env.freeDevice
        let t3 := t2 ++ [Event.losetupAttach device_path backing_file]
        match env.attachRes with
        | .spawnErr => (.error .attachSpawn, t3)
        | .exit false => (.error .attachFailed, t3)
        | .exit true =>
          let t4 := t3 ++ [Event.blockdevGetSize64 device_path]
          match env.sizeQuery with
          | none => (.error .sizeQueryFailed, t4)
          | some reported =>
            if reported ≠ size_bytes then
              (.error (.sizeMismatch reported size_bytes), t4)
            else
              (.ok { device_path := device_path, backing_file := backing_file,
                     should_cleanup := true }, t4)

/-- Embeds `LoopDevice::detach(&mut self)`: no-op when `should_cleanup` is already
false; otherwise runs `losetup -d` and clears `should_cleanup` only on
success. -/
def LoopDevice.detach (d : LoopDevice) (res : CmdResult) :
    Except RError Unit × LoopDevice × List Event :=
  if !d.should_cleanup then (.ok (), d, [])
  else
    let t := [Event.losetupDetach d.device_path]
    match res with
    | .spawnErr => (.error .detachSpawn, d, t)
    | .exit false => (.error (.detachFailed d.device_path), d, t)
    | .exit true => (.ok (), { d with should_cleanup := false }, t)

/-- Embeds `impl Drop for LoopDevice`: if `should_cleanup`, call `detach` and
ignore its result.  Only the emitted events survive (the value is gone). -/
def LoopDevice.dropRun (d : LoopDevice) (res : CmdResult) : List Event :=
  if d.should_cleanup then (LoopDevice.detach d res).2.2 else []

/-- Embeds `struct ThinPool`: a device-mapper thin-provisioning pool owning its
metadata and data loop devices. -/
structure ThinPool where
  name : String
  metadata_dev : LoopDevice
  data_dev : LoopDevice
  data_block_size : Nat
  should_cleanup : Bool
deriving DecidableEq, Repr

/-- The XML description of an empty thin pool that
`ThinPool::initialize_metadata` writes: sizes are converted from megabytes
to 512-byte sectors, and the block count is the integer quotient of the
two sector counts. -/
def metadataXml (data_size_mb data_block_size_sectors : Nat) : String :=
  let data_size_sectors := data_size_mb * 1024 * 1024 / 512
  let nr_data_blocks := data_size_sectors / data_block_size_sectors
  "<superblock uuid=\"\" time=\"0\" transaction=\"0\" data_block_size=\"" ++
    toString data_block_size_sectors ++ "\" nr_data_blocks=\"" ++
    toString nr_data_blocks ++ "\"></superblock>"

/-- Outcomes of the external calls `ThinPool::initialize_metadata` makes:
`std::fs::write` of the XML file, then `thin_restore`. -/
structure MetadataEnv where
  writeOk : Bool
  restoreRes : CmdResult
deriving DecidableEq, Repr

/-- Embeds `ThinPool::initialize_metadata(metadata_path, data_size_mb,
data_block_size_sectors)`: writes the XML description to
`/tmp/thin-metadata-init.xml`, runs `thin_restore`, then removes the XML
file (the removal is skipped on a spawn error, since the `?` propagates
before `remove_file`). -/
def ThinPool.initialize_metadata (metadata_path : String)
    (data_size_mb data_block_size_sectors : Nat) (env : MetadataEnv) :
    Except RError Unit × List Event :=
  let xml := metadataXml data_size_mb data_block_size_sectors
  let xml_file := "/tmp/thin-metadata-init.xml"
  let t0 := [Event.writeFile xml_file xml]
  if !env.writeOk then (.error .metadataXmlWrite, t0)
  else
    let t1 := t0 ++ [Event.thinRestore xml_file metadata_path]
    match env.restoreRes with
    | .spawnErr => (.error .thinRestoreSpawn, t1)
    | .exit ok =>
      let t2 := t1 ++ [Event.removeFile xml_file]
      if !ok then (.error .thinRestoreFailed, t2) else (.ok (), t2)

/-- The `dmsetup` thin-pool table line built by
`ThinPool::create_pool_device`. -/
def poolTable (data_size_sectors : Nat) (metadata_path data_path : String)
    (data_block_size_sectors : Nat) : String :=
  "0 " ++ toString data_size_sectors ++ " thin-pool " ++ metadata_path ++
    " " ++ data_path ++ " " ++ toString data_block_size_sectors ++
    " 0 1 skip_block_zeroing"

/-- Outcomes of the external calls `ThinPool::create_pool_device` makes:
the `blockdev --getsz` query on the data device (`none` when the spawn,
status check or parse fails, `some n` for `n` sectors) and the
`dmsetup create` of the pool device. -/
structure PoolDeviceEnv where
  szQuery : Option Nat
  createRes : CmdResult
deriving DecidableEq, Repr

/-- Embeds `ThinPool::create_pool_device(pool_name, metadata_path, data_path,
data_block_size_sectors)`: queries the data device's sector count, builds
the thin-pool table line and runs `dmsetup create`. -/
def ThinPool.create_pool_device (pool_name : String)
    (metadata_path data_path : String) (data_block_size_sectors : Nat)
    (env : PoolDeviceEnv) : Except RError Unit × List Event :=
  let t0 := [Event.blockdevGetSz data_path]
  match env.szQuery with
  | none => (.error .dataSizeQueryFailed, t0)
  | some data_size_sectors =>
    let table := poolTable data_size_sectors metadata_path data_path
      data_block_size_sectors
    let t1 := t0 ++ [Event.dmsetupCreate pool_name table]
    match env.createRes with
    | .spawnErr => (.error .dmCreateSpawn, t1)
    | .exit false => (.error (.dmCreateFailed pool_name), t1)
    | .exit true => (.ok (), t1)

/-- All external outcomes a single `ThinPool::create` run can consume.
`metaDetach` and `dataDetach` fix the outcome of the `losetup -d` that the
`Drop` of the respective loop device would issue on an error path. -/
structure PoolCreateEnv where
  metaLoop : LoopEnv
  dataLoop : LoopEnv
  metadata : MetadataEnv
  poolDev : PoolDeviceEnv
  metaDetach : CmdResult
  dataDetach : CmdResult
deriving DecidableEq, Repr

/-- Embeds `ThinPool::create(pool_name, metadata_size_mb, data_size_mb,
data_block_size_sectors)`: derives the two backing-file paths under /tmp,
unconditionally removes any pre-existing files there, creates the two loop
devices, initializes the metadata and creates the pool device.  On every
error path after a loop device was created, Rust drops the local
`LoopDevice` values in reverse declaration order (`data_dev` first, then
`metadata_dev`), which issues their `losetup -d` cleanups. -/
def ThinPool.create (pool_name : String)
    (metadata_size_mb data_size_mb data_block_size_sectors : Nat)
    (env : PoolCreateEnv) : Except RError ThinPool × List Event :=
  let metadata_backing := "/tmp/" ++ pool_name ++ "-metadata.img"
  let data_backing := "/tmp/" ++ pool_name ++ "-data.img"
  let t0 := [Event.removeFile metadata_backing, Event.removeFile data_backing]
  match LoopDevice.create metadata_backing metadata_size_mb env.metaLoop with
  | (.error e, tm) => (.error e, t0 ++ tm)
  | (.ok metadata_dev, tm) =>
    match LoopDevice.create data_backing data_size_mb env.dataLoop with
    | (.error e, td) =>
      (.error e, t0 ++ tm ++ td ++ metadata_dev.dropRun env.metaDetach)
    | (.ok data_dev, td) =>
      match ThinPool.initialize_metadata metadata_dev.device_path
          data_size_mb data_block_size_sectors env.metadata with
      | (.error e, ti) =>
        (.error e, t0 ++ tm ++ td ++ ti ++ data_dev.dropRun env.dataDetach
          ++ metadata_dev.dropRun env.metaDetach)
      | (.ok _, ti) =>
        match ThinPool.create_pool_device pool_name metadata_dev.device_path
            data_dev.device_path data_block_size_sectors env.poolDev with
        | (.error e, tp) =>
          (.error e, t0 ++ tm ++ td ++ ti ++ tp
            ++ data_dev.dropRun env.dataDetach
            ++ metadata_dev.dropRun env.metaDetach)
        | (.ok _, tp) =>
          (.ok { name := pool_name, metadata_dev := metadata_dev,
                 data_dev := data_dev,
                 data_block_size := data_block_size_sectors,
                 should_cleanup := true },
           t0 ++ tm ++ td ++ ti ++ tp)

/-- Embeds `ThinPool::remove(&mut self)`: no-op when `should_cleanup` is already
false; otherwise runs `dmsetup remove <name>` and clears `should_cleanup`
only on success.  The owned loop devices are not touched here. -/
def ThinPool.remove (p : ThinPool) (res : CmdResult) :
    Except RError Unit × ThinPool × List Event :=
  if !p.should_cleanup then (.ok (), p, [])
  else
    let t := [Event.dmsetupRemove p.name]
    match res with
    | .spawnErr => (.error .poolRemoveSpawn, p, t)
    | .exit false => (.error (.poolRemoveFailed p.name), p, t)
    | .exit true => (.ok (), { p with should_cleanup := false }, t)

/-- Embeds `struct ThinVolume`: a thin volume (or snapshot) carved from a pool. -/
structure ThinVolume where
  name : String
  pool_name : String
  device_id : Nat
  virtual_size_mb : Nat
  should_cleanup : Bool
deriving DecidableEq, Repr

/-- The `dmsetup` thin-volume table line shared by
`ThinPool::create_thin_volume` and `ThinVolume::create_snapshot`. -/
def volumeTable (virtual_size_sectors : Nat) (pool_name : String)
    (device_id : Nat) : String :=
  "0 " ++ toString virtual_size_sectors ++ " thin /dev/mapper/" ++
    pool_name ++ " " ++ toString device_id

/-- Outcomes of the two external calls a volume (or snapshot) creation
makes: the pool message (`create_thin` / `create_snap`) and the
`dmsetup create` of the volume device. -/
structure VolumeCreateEnv where
  messageRes : CmdResult
  createRes : CmdResult
deriving DecidableEq, Repr

/-- Embeds `ThinPool::create_thin_volume(&self, volume_name, virtual_size_mb,
device_id)`: sends `create_thin <id>` to the pool, then creates the volume
device with a table sized from `virtual_size_mb` converted to sectors.  If
the device creation fails after the message succeeded, the error is
returned with no compensating `delete` message and no release of the id. -/
def ThinPool.create_thin_volume (pool : ThinPool) (volume_name : String)
    (virtual_size_mb device_id : Nat) (env : VolumeCreateEnv) :
    Except RError ThinVolume × List Event :=
  let message := "create_thin " ++ toString device_id
  let target := "/dev/mapper/" ++ pool.name
  let t0 := [Event.dmsetupMessage target message]
  match env.messageRes with
  | .spawnErr => (.error .messageSpawn, t0)
  | .exit false => (.error (.messageFailed device_id), t0)
  | .exit true =>
    let virtual_size_sectors := virtual_size_mb * 1024 * 1024 / 512
    let table := volumeTable virtual_size_sectors pool.name device_id
    let t1 := t0 ++ [Event.dmsetupCreate volume_name table]
    match env.createRes with
    | .spawnErr => (.error .dmCreateSpawn, t1)
    | .exit false => (.error (.dmCreateFailed volume_name), t1)
    | .exit true =>
      (.ok { name := volume_name, pool_name := pool.name,
             device_id := device_id, virtual_size_mb := virtual_size_mb,
             should_cleanup := true }, t1)

/-- Embeds `ThinVolume::create_snapshot(&self, snapshot_name,
snapshot_device_id)`: sends `create_snap <new-id> <origin-id>` to the
owning pool, then creates the snapshot device; the table's sector count
and the returned volume's `virtual_size_mb` are both taken from the
origin. -/
def ThinVolume.create_snapshot (origin : ThinVolume) (snapshot_name : String)
    (snapshot_device_id : Nat) (env : VolumeCreateEnv) :
    Except RError ThinVolume × List Event :=
  let message := "create_snap " ++ toString snapshot_device_id ++ " " ++
    toString origin.device_id
  let target := "/dev/mapper/" ++ origin.pool_name
  let t0 := [Event.dmsetupMessage target message]
  match env.messageRes with
  | .spawnErr => (.error .snapMessageSpawn, t0)
  | .exit false => (.error (.snapMessageFailed snapshot_device_id), t0)
  | .exit true =>
    let virtual_size_sectors := origin.virtual_size_mb * 1024 * 1024 / 512
    let table := volumeTable virtual_size_sectors origin.pool_name
      snapshot_device_id
    let t1 := t0 ++ [Event.dmsetupCreate snapshot_name table]
    match env.createRes with
    | .spawnErr => (.error .dmCreateSpawn, t1)
    | .exit false => (.error (.dmCreateFailed snapshot_name), t1)
    | .exit true =>
      (.ok { name := snapshot_name, pool_name := origin.pool_name,
             device_id := snapshot_device_id,
             virtual_size_mb := origin.virtual_size_mb,
             should_cleanup := true }, t1)

/-- Outcomes of the two external calls `ThinVolume::remove` makes: the
`dmsetup remove` of the device node and the `delete <id>` pool message. -/
structure VolumeRemoveEnv where
  removeRes : CmdResult
  deleteRes : CmdResult
deriving DecidableEq, Repr

/-- Embeds `ThinVolume::remove(&mut self)`: no-op when `should_cleanup` is
already false.  Otherwise removes the device node (any failure there
returns an error with `should_cleanup` untouched), then sends
`delete <id>` to the pool: a spawn error on that command propagates via
`?` before `should_cleanup` is cleared, while a nonzero exit status is
downgraded to a warning and the volume is still marked removed. -/
def ThinVolume.remove (v : ThinVolume) (env : VolumeRemoveEnv) :
    Except RError Unit × ThinVolume × List Event :=
  if !v.should_cleanup then (.ok (), v, [])
  else
    let t0 := [Event.dmsetupRemove v.name]
    match env.removeRes with
    | .spawnErr => (.error .volRemoveSpawn, v, t0)
    | .exit false => (.error (.volRemoveFailed v.name), v, t0)
    | .exit true =>
      let msg := "delete " ++ toString v.device_id
      let target := "/dev/mapper/" ++ v.pool_name
      let t1 := t0 ++ [Event.dmsetupMessage target msg]
      match env.deleteRes with
      | .spawnErr => (.error .deleteMessageSpawn, v, t1)
      | .exit ok =>
        let t2 := t1 ++ (if ok then [] else
          [Event.warning ("Failed to delete thin device " ++
            toString v.device_id ++ " from pool")])
        (.ok (), { v with should_cleanup := false }, t2)

/-- Modelled from the spec: the DeviceIdAllocator component of §4.3 is
absent from src/ — `ThinPool::create_thin_volume` and
`ThinVolume::create_snapshot` take the device id as a caller-supplied
argument, and no allocator type exists anywhere in the repository.  The
spec prescribes: a monotonically increasing counter per pool handing out
identifiers not currently live, with released ids never reused within the
allocator's process lifetime. -/
structure DeviceIdAllocator where
  next : Nat
  live : List Nat
deriving DecidableEq, Repr

/-- Modelled from the spec: a fresh per-pool allocator, counter at 0 and
no live ids. -/
def DeviceIdAllocator.init : DeviceIdAllocator := { next := 0, live := [] }

/-- Modelled from the spec: `allocate() -> id` returns the counter value,
marks it live and increments the counter. -/
def DeviceIdAllocator.allocate (a : DeviceIdAllocator) :
    Nat × DeviceIdAllocator :=
  (a.next, { next := a.next + 1, live := a.next :: a.live })

/-- Modelled from the spec: `release(id)` marks `id` no longer live;
releasing a non-live or unknown id is a no-op.  The counter is not
rewound, so a released id is never handed out again. -/
def DeviceIdAllocator.release (a : DeviceIdAllocator) (id : Nat) :
    DeviceIdAllocator :=
  { a with live := a.live.filter (fun i => i ≠ id) }

/-- One client request against the allocator. -/
inductive AllocOp where
  | alloc : AllocOp
  | release : Nat → AllocOp
deriving DecidableEq, Repr

/-- Run a sequence of requests against an allocator state, collecting the
ids handed out by the `alloc` requests in order. -/
def allocRun (a : DeviceIdAllocator) : List AllocOp →
    DeviceIdAllocator × List Nat
  | [] => (a, [])
  | AllocOp.alloc :: ops =>
    ((allocRun (a.allocate).2 ops).1,
      (a.allocate).1 :: (allocRun (a.allocate).2 ops).2)
  | AllocOp.release i :: ops => allocRun (a.release i) ops

/-- A concrete pool as `demonstrate_thin_provisioning` builds it, used to
instantiate universally quantified theorems. -/
def demoPool : ThinPool where
  name := "demo-pool"
  metadata_dev :=
    { device_path := "/dev/loop0",
      backing_file := "/tmp/demo-pool-metadata.img", should_cleanup := true }
  data_dev :=
    { device_path := "/dev/loop1",
      backing_file := "/tmp/demo-pool-data.img", should_cleanup := true }
  data_block_size := 2048
  should_cleanup := true

/-- A concrete live volume, used to instantiate universally quantified
theorems. -/
def demoVolume : ThinVolume :=
  { name := "demo-base", pool_name := "demo-pool", device_id := 5,
    virtual_size_mb := 500, should_cleanup := true }

/-- A concrete attached loop device, used to instantiate universally
quantified theorems. -/
def demoLoop : LoopDevice :=
  { device_path := "/dev/loop0",
    backing_file := "/tmp/loop-demo-backing.img", should_cleanup := true }

/-- An environment in which every external call of `LoopDevice::create`
succeeds but the bound device reports size 0. -/
def mismatchLoopEnv : LoopEnv :=
  { createFileOk := true, fallocateRes := CmdResult.exit true,
    findRes := CmdResult.exit true, freeDevice := "/dev/loop0",
    attachRes := CmdResult.exit true, sizeQuery := some 0 }

/-- A successfully created loop device has `should_cleanup` set. -/
theorem LoopDevice.create_ok_cleanup {f : String} {s : Nat} {e : LoopEnv}
    {d : LoopDevice} (h : (LoopDevice.create f s e).1 = Except.ok d) :
    d.should_cleanup = true := by
  unfold LoopDevice.create at h
  repeat' split at h
  all_goals simp_all
  split at h <;> simp_all
  exact h ▸ rfl

/-- Dropping a loop device that still has `should_cleanup` set issues
exactly its `losetup -d` invocation, whatever the outcome. -/
theorem LoopDevice.dropRun_cleanup {d : LoopDevice}
    (h : d.should_cleanup = true) (res : CmdResult) :
    d.dropRun res = [Event.losetupDetach d.device_path] := by
  rcases res with _ | b
  · simp [LoopDevice.dropRun, LoopDevice.detach, h]
  · cases b <;> simp [LoopDevice.dropRun, LoopDevice.detach, h]

/-- Claim C1: the claim states that when the volume-construction control
call fails after the `create_thin` message for the device id already
succeeded, `ThinPool::create_thin_volume` issues a compensating `delete`
message for that id and releases the id before returning the error.  The
code does neither: at an input where the `create_thin 5` message succeeds
and the `dmsetup create` fails, the operation returns the error having
issued exactly the two recorded invocations — no `delete 5` message
appears in the trace, and no allocator exists to release the id to. -/
theorem create_thin_volume_no_compensating_delete :
    (ThinPool.create_thin_volume demoPool "demo-base" 500 5
        { messageRes := CmdResult.exit true,
          createRes := CmdResult.exit false }).1 =
      Except.error (RError.dmCreateFailed "demo-base") ∧
    (ThinPool.create_thin_volume demoPool "demo-base" 500 5
        { messageRes := CmdResult.exit true,
          createRes := CmdResult.exit false }).2 =
      [Event.dmsetupMessage "/dev/mapper/demo-pool" "create_thin 5",
       Event.dmsetupCreate "demo-base" (volumeTable 1024000 "demo-pool" 5)] ∧
    Event.dmsetupMessage "/dev/mapper/demo-pool" "delete 5" ∉
      (ThinPool.create_thin_volume demoPool "demo-base" 500 5
        { messageRes := CmdResult.exit true,
          createRes := CmdResult.exit false }).2 := by
  refine ⟨rfl, rfl, ?_⟩
  decide

/-- Claim C2: the claim states that on a size mismatch `LoopDevice::create`
unbinds the device before returning the error, leaving no bound device
behind.  The code does not: at an input where every external call succeeds
but the bound device reports 0 bytes instead of the requested 104857600,
the operation returns the size-mismatch error with the `losetup` attach in
its trace and no `losetup -d` anywhere — and since no `LoopDevice` value
was constructed, no destructor will ever detach it either. -/
theorem loop_create_size_mismatch_leaves_device_bound :
    (LoopDevice.create "/tmp/loop-demo-backing.img" 100 mismatchLoopEnv).1 =
      Except.error (RError.sizeMismatch 0 104857600) ∧
    (LoopDevice.create "/tmp/loop-demo-backing.img" 100 mismatchLoopEnv).2 =
      [Event.createFile "/tmp/loop-demo-backing.img",
       Event.fallocate "/tmp/loop-demo-backing.img" 104857600,
       Event.losetupFind,
       Event.losetupAttach "/dev/loop0" "/tmp/loop-demo-backing.img",
       Event.blockdevGetSize64 "/dev/loop0"] ∧
    Event.losetupDetach "/dev/loop0" ∉
      (LoopDevice.create "/tmp/loop-demo-backing.img" 100 mismatchLoopEnv).2 := by
  refine ⟨rfl, rfl, ?_⟩
  decide

/-- Claim C6, counterexample: the claim states that when the unbind fails,
`LoopDevice::detach` surfaces the error but still marks the device
released, so a further call is a no-op.  The code does not: when
`losetup -d` exits unsuccessfully on a live device, the error is returned
with `should_cleanup` still `true`, and a second `detach` call re-issues
the `losetup -d` invocation rather than being a no-op. -/
theorem detach_failure_not_marked_released :
    (LoopDevice.detach demoLoop (CmdResult.exit false)).1 =
      Except.error (RError.detachFailed "/dev/loop0") ∧
    ((LoopDevice.detach demoLoop (CmdResult.exit false)).2.1).should_cleanup
      = true ∧
    (LoopDevice.detach
        ((LoopDevice.detach demoLoop (CmdResult.exit false)).2.1)
        (CmdResult.exit false)).2.2 =
      [Event.losetupDetach "/dev/loop0"] :=
  ⟨rfl, rfl, rfl⟩

/-- Claim C6, amended: `LoopDevice::detach` on a live device is idempotent
after a *successful* unbind (the device is marked released and any further
call is a no-op issuing nothing); but when the unbind fails, the error is
surfaced with the device still marked attached, so a subsequent call
retries the `losetup -d` instead of being a no-op. -/
theorem detach_idempotent_after_success_retries_after_failure
    (d : LoopDevice) (res : CmdResult) (h : d.should_cleanup = true) :
    (res = CmdResult.exit true →
      LoopDevice.detach d res =
        (Except.ok (), { d with should_cleanup := false },
          [Event.losetupDetach d.device_path]) ∧
      ∀ res', LoopDevice.detach { d with should_cleanup := false } res' =
        (Except.ok (), { d with should_cleanup := false }, [])) ∧
    (res ≠ CmdResult.exit true →
      (∃ e, (LoopDevice.detach d res).1 = Except.error e) ∧
      (LoopDevice.detach d res).2.1 = d ∧
      (LoopDevice.detach d res).2.2 =
        [Event.losetupDetach d.device_path]) := by
  constructor
  · rintro rfl
    constructor
    · simp [LoopDevice.detach, h]
    · intro res'
      simp [LoopDevice.detach]
  · intro hne
    rcases res with _ | b
    · exact ⟨⟨RError.detachSpawn, by simp [LoopDevice.detach, h]⟩,
        by simp [LoopDevice.detach, h], by simp [LoopDevice.detach, h]⟩
    · cases b
      · exact ⟨⟨RError.detachFailed d.device_path,
          by simp [LoopDevice.detach, h]⟩,
          by simp [LoopDevice.detach, h], by simp [LoopDevice.detach, h]⟩
      · exact absurd rfl hne

/-- Claim C6, witness: the amended theorem applied to the concrete live
device and a successful `losetup -d`. -/
theorem detach_idempotent_witness :
    LoopDevice.detach demoLoop (CmdResult.exit true) =
      (Except.ok (), { demoLoop with should_cleanup := false },
        [Event.losetupDetach demoLoop.device_path]) :=
  ((detach_idempotent_after_success_retries_after_failure demoLoop
    (CmdResult.exit true) (by decide)).1 rfl).1

/-- Claim C5, counterexample: the claim states that whenever node removal
succeeds and the subsequent `delete` message fails, `ThinVolume::remove`
still succeeds with only a warning and marks the volume removed.  Not for
every failure mode: when the `delete` command cannot be run at all (the
spawn error that `.context(...)?` propagates), the operation returns that
error before `should_cleanup` is cleared, so the volume is not marked
removed. -/
theorem volume_remove_delete_spawn_failure_not_success :
    (ThinVolume.remove demoVolume
        { removeRes := CmdResult.exit true,
          deleteRes := CmdResult.spawnErr }).1 =
      Except.error RError.deleteMessageSpawn ∧
    ((ThinVolume.remove demoVolume
        { removeRes := CmdResult.exit true,
          deleteRes := CmdResult.spawnErr }).2.1).should_cleanup = true :=
  ⟨rfl, rfl⟩

/-- Claim C5, amended: for a live volume, if the node-removal call fails
(spawn error or unsuccessful exit), `ThinVolume::remove` returns an error,
the volume is unchanged (still live) and no `delete` message is sent, so
retry is possible.  If node removal succeeds and the `delete` message
command runs but exits unsuccessfully, the operation still succeeds, the
failure is reported only as a warning, and the volume is marked removed.
If node removal succeeds but the `delete` command cannot be run at all,
the error propagates and the volume is not marked removed. -/
theorem volume_remove_node_vs_delete_asymmetry
    (v : ThinVolume) (env : VolumeRemoveEnv) (h : v.should_cleanup = true) :
    (env.removeRes ≠ CmdResult.exit true →
      (∃ e, (ThinVolume.remove v env).1 = Except.error e) ∧
      (ThinVolume.remove v env).2.1 = v ∧
      (ThinVolume.remove v env).2.2 = [Event.dmsetupRemove v.name]) ∧
    (env.removeRes = CmdResult.exit true →
      env.deleteRes = CmdResult.exit false →
      (ThinVolume.remove v env).1 = Except.ok () ∧
      ((ThinVolume.remove v env).2.1).should_cleanup = false ∧
      Event.warning ("Failed to delete thin device " ++
          toString v.device_id ++ " from pool") ∈
        (ThinVolume.remove v env).2.2) ∧
    (env.removeRes = CmdResult.exit true →
      env.deleteRes = CmdResult.spawnErr →
      (ThinVolume.remove v env).1 = Except.error RError.deleteMessageSpawn ∧
      ((ThinVolume.remove v env).2.1).should_cleanup = true) := by
  obtain ⟨rR, dR⟩ := env
  refine ⟨?_, ?_, ?_⟩
  · intro hne
    rcases rR with _ | b
    · exact ⟨⟨RError.volRemoveSpawn, by simp [ThinVolume.remove, h]⟩,
        by simp [ThinVolume.remove, h], by simp [ThinVolume.remove, h]⟩
    · cases b
      · exact ⟨⟨RError.volRemoveFailed v.name, by simp [ThinVolume.remove, h]⟩,
          by simp [ThinVolume.remove, h], by simp [ThinVolume.remove, h]⟩
      · exact absurd rfl hne
  · rintro hr hd
    simp only at hr hd
    subst hr hd
    refine ⟨?_, ?_, ?_⟩ <;> simp [ThinVolume.remove, h]
  · rintro hr hd
    simp only at hr hd
    subst hr hd
    exact ⟨by simp [ThinVolume.remove, h], by simp [ThinVolume.remove, h]⟩

/-- Claim C5, witness: the amended theorem applied to the concrete live
volume with node removal succeeding and the `delete` message exiting
unsuccessfully. -/
theorem volume_remove_asymmetry_witness :
    (ThinVolume.remove demoVolume
        { removeRes := CmdResult.exit true,
          deleteRes := CmdResult.exit false }).1 = Except.ok () :=
  ((volume_remove_node_vs_delete_asymmetry demoVolume
    { removeRes := CmdResult.exit true, deleteRes := CmdResult.exit false }
    (by decide)).2.1 rfl rfl).1

/-- Claim C7: once `ThinPool::remove` returns success the pool is marked
removed (`should_cleanup = false`), and every subsequent `remove` call on
the resulting pool is a no-op: it returns success, leaves the pool
unchanged and issues no external invocation at all. -/
theorem pool_remove_success_marks_removed_then_noop
    (p : ThinPool) (res : CmdResult)
    (h : (ThinPool.remove p res).1 = Except.ok ()) :
    ((ThinPool.remove p res).2.1).should_cleanup = false ∧
    ∀ res', ThinPool.remove ((ThinPool.remove p res).2.1) res' =
      (Except.ok (), (ThinPool.remove p res).2.1, []) := by
  by_cases hc : p.should_cleanup
  · rcases res with _ | b
    · simp [ThinPool.remove, hc] at h
    · cases b
      · simp [ThinPool.remove, hc] at h
      · refine ⟨by simp [ThinPool.remove, hc], fun res' => ?_⟩
        simp [ThinPool.remove, hc]
  · have hc' : p.should_cleanup = false := by simpa using hc
    refine ⟨by simp [ThinPool.remove, hc'], fun res' => ?_⟩
    simp [ThinPool.remove, hc']

/-- Claim C7, witness: the theorem applied to the concrete pool with a
successful `dmsetup remove`. -/
theorem pool_remove_success_witness :
    ((ThinPool.remove demoPool (CmdResult.exit true)).2.1).should_cleanup
      = false :=
  (pool_remove_success_marks_removed_then_noop demoPool
    (CmdResult.exit true) rfl).1

/-- Claim C8: every snapshot `ThinVolume::create_snapshot` returns carries
`virtual_size_mb` copied from its origin, and the `dmsetup create` table
sent in the volume-construction control call is sized from the origin's
`virtual_size_mb` converted to 512-byte sectors. -/
theorem snapshot_virtual_size_copied_from_origin
    (origin : ThinVolume) (snapshot_name : String) (id : Nat)
    (env : VolumeCreateEnv) (snap : ThinVolume) (t : List Event)
    (h : ThinVolume.create_snapshot origin snapshot_name id env =
      (Except.ok snap, t)) :
    snap.virtual_size_mb = origin.virtual_size_mb ∧
    Event.dmsetupCreate snapshot_name
      (volumeTable (origin.virtual_size_mb * 1024 * 1024 / 512)
        origin.pool_name id) ∈ t := by
  obtain ⟨mR, cR⟩ := env
  rcases mR with _ | mb
  · simp [ThinVolume.create_snapshot] at h
  · cases mb
    · simp [ThinVolume.create_snapshot] at h
    · rcases cR with _ | cb
      · simp [ThinVolume.create_snapshot] at h
      · cases cb
        · simp [ThinVolume.create_snapshot] at h
        · simp only [ThinVolume.create_snapshot, Prod.mk.injEq,
            Except.ok.injEq] at h
          obtain ⟨hs, ht⟩ := h
          subst hs ht
          exact ⟨rfl, by simp⟩

/-- Claim C8, witness: the theorem applied to the concrete origin volume
with both external calls succeeding. -/
theorem snapshot_virtual_size_witness :
    ({ name := "demo-snapshot", pool_name := "demo-pool", device_id := 1,
       virtual_size_mb := 500, should_cleanup := true }
        : ThinVolume).virtual_size_mb = demoVolume.virtual_size_mb :=
  (snapshot_virtual_size_copied_from_origin demoVolume "demo-snapshot" 1
    { messageRes := CmdResult.exit true, createRes := CmdResult.exit true }
    { name := "demo-snapshot", pool_name := "demo-pool", device_id := 1,
      virtual_size_mb := 500, should_cleanup := true }
    [Event.dmsetupMessage "/dev/mapper/demo-pool" "create_snap 1 5",
     Event.dmsetupCreate "demo-snapshot" (volumeTable 1024000 "demo-pool" 1)]
    rfl).1

/-- Claim C9: metadata initialization converts the data size from
megabytes to 512-byte sectors as `data_size_mb * 1024 * 1024 / 512` (which
is exactly `data_size_mb * 2048`, with nothing truncated in the
conversion itself), writes into the metadata description a block count of
`data_size_sectors / data_block_size_sectors` computed by integer
division, and that quotient silently drops any remainder: the block count
is the greatest multiple of the block size not exceeding the sector
count. -/
theorem initialize_metadata_sector_and_block_arithmetic
    (metadata_path : String) (data_size_mb data_block_size_sectors : Nat)
    (env : MetadataEnv) (hbs : 0 < data_block_size_sectors) :
    data_size_mb * 1024 * 1024 / 512 = data_size_mb * 2048 ∧
    metadataXml data_size_mb data_block_size_sectors =
      "<superblock uuid=\"\" time=\"0\" transaction=\"0\" data_block_size=\""
        ++ toString data_block_size_sectors ++ "\" nr_data_blocks=\"" ++
        toString (data_size_mb * 2048 / data_block_size_sectors) ++
        "\"></superblock>" ∧
    Event.writeFile "/tmp/thin-metadata-init.xml"
        (metadataXml data_size_mb data_block_size_sectors) ∈
      (ThinPool.initialize_metadata metadata_path data_size_mb
        data_block_size_sectors env).2 ∧
    data_block_size_sectors *
        (data_size_mb * 2048 / data_block_size_sectors) ≤
      data_size_mb * 2048 ∧
    data_size_mb * 2048 <
      data_block_size_sectors *
        (data_size_mb * 2048 / data_block_size_sectors) +
        data_block_size_sectors := by
  have hconv : data_size_mb * 1024 * 1024 / 512 = data_size_mb * 2048 := by
    omega
  refine ⟨hconv, ?_, ?_, Nat.mul_div_le _ _, ?_⟩
  · simp [metadataXml, hconv]
  · obtain ⟨w, r⟩ := env
    cases w
    · simp [ThinPool.initialize_metadata]
    · rcases r with _ | b
      · simp [ThinPool.initialize_metadata]
      · cases b <;> simp [ThinPool.initialize_metadata]
  · have h1 := Nat.div_add_mod (data_size_mb * 2048) data_block_size_sectors
    have h2 := Nat.mod_lt (data_size_mb * 2048) hbs
    omega

/-- Claim C9, witness: the theorem applied at 1024 MB of data and 2048
sectors per block, as the demo does. -/
theorem initialize_metadata_arithmetic_witness :
    metadataXml 1024 2048 =
      "<superblock uuid=\"\" time=\"0\" transaction=\"0\" data_block_size=\"2048\" nr_data_blocks=\"1024\"></superblock>" :=
  (initialize_metadata_sector_and_block_arithmetic "/dev/loop0" 1024 2048
    { writeOk := true, restoreRes := CmdResult.exit true } (by decide)).2.1

/-- Claim C10: for every pool name and whatever the external world does,
`ThinPool::create` derives the backing-file paths as
`/tmp/<name>-metadata.img` and `/tmp/<name>-data.img` and its very first
two external actions are unconditional removals of any pre-existing files
at those two paths (their results are ignored), before any loop device is
allocated. -/
theorem pool_create_removes_backing_files_first (pool_name : String)
    (metadata_size_mb data_size_mb data_block_size_sectors : Nat)
    (env : PoolCreateEnv) :
    ∃ rest, (ThinPool.create pool_name metadata_size_mb data_size_mb
        data_block_size_sectors env).2 =
      Event.removeFile ("/tmp/" ++ pool_name ++ "-metadata.img") ::
        Event.removeFile ("/tmp/" ++ pool_name ++ "-data.img") :: rest := by
  unfold ThinPool.create
  dsimp only
  repeat' split
  all_goals exact ⟨_, rfl⟩

/-- Claim C3: whenever `ThinPool::create` fails after both backing loop
devices were created — that is, at metadata initialization or at the
pool-construction control call — the `losetup -d` release of *both*
devices (issued by Rust dropping the two `LoopDevice` locals) appears in
the operation's trace, i.e. both releases run before the error reaches
the caller. -/
theorem pool_create_post_allocation_failure_detaches_both
    (pool_name : String)
    (metadata_size_mb data_size_mb data_block_size_sectors : Nat)
    (env : PoolCreateEnv) (md dd : LoopDevice) (tm td : List Event)
    (e : RError) (t : List Event)
    (hm : LoopDevice.create ("/tmp/" ++ pool_name ++ "-metadata.img")
      metadata_size_mb env.metaLoop = (Except.ok md, tm))
    (hd : LoopDevice.create ("/tmp/" ++ pool_name ++ "-data.img")
      data_size_mb env.dataLoop = (Except.ok dd, td))
    (hc : ThinPool.create pool_name metadata_size_mb data_size_mb
      data_block_size_sectors env = (Except.error e, t)) :
    Event.losetupDetach md.device_path ∈ t ∧
    Event.losetupDetach dd.device_path ∈ t := by
  have hmc : md.should_cleanup = true :=
    LoopDevice.create_ok_cleanup (by rw [hm])
  have hdc : dd.should_cleanup = true :=
    LoopDevice.create_ok_cleanup (by rw [hd])
  unfold ThinPool.create at hc
  simp only [hm, hd] at hc
  rcases hi : ThinPool.initialize_metadata md.device_path data_size_mb
      data_block_size_sectors env.metadata with ⟨ri, ti⟩
  simp only [hi] at hc
  cases ri with
  | error e1 =>
    simp only [Prod.mk.injEq] at hc
    obtain ⟨-, ht⟩ := hc
    subst ht
    refine ⟨?_, ?_⟩ <;>
      simp [LoopDevice.dropRun_cleanup hmc, LoopDevice.dropRun_cleanup hdc]
  | ok u =>
    rcases hp : ThinPool.create_pool_device pool_name md.device_path
        dd.device_path data_block_size_sectors env.poolDev with ⟨rp, tp⟩
    simp only [hp] at hc
    cases rp with
    | error e2 =>
      simp only [Prod.mk.injEq] at hc
      obtain ⟨-, ht⟩ := hc
      subst ht
      refine ⟨?_, ?_⟩ <;>
        simp [LoopDevice.dropRun_cleanup hmc, LoopDevice.dropRun_cleanup hdc]
    | ok u2 => simp at hc

/-- An environment for `ThinPool::create` in which both loop devices come
up with the right sizes and `thin_restore` then exits unsuccessfully, so
creation fails after both backing devices were allocated. -/
def c3Env : PoolCreateEnv where
  metaLoop :=
    { createFileOk := true, fallocateRes := CmdResult.exit true,
      findRes := CmdResult.exit true, freeDevice := "/dev/loop0",
      attachRes := CmdResult.exit true, sizeQuery := some 104857600 }
  dataLoop :=
    { createFileOk := true, fallocateRes := CmdResult.exit true,
      findRes := CmdResult.exit true, freeDevice := "/dev/loop1",
      attachRes := CmdResult.exit true, sizeQuery := some 1073741824 }
  metadata := { writeOk := true, restoreRes := CmdResult.exit false }
  poolDev := { szQuery := some 2097152, createRes := CmdResult.exit true }
  metaDetach := CmdResult.exit true
  dataDetach := CmdResult.exit true

/-- Claim C3, witness: the theorem applied at the demo's pool parameters
with `thin_restore` failing after both loop devices were created. -/
theorem pool_create_failure_detaches_witness :
    Event.losetupDetach "/dev/loop0" ∈
      (ThinPool.create "demo-pool" 100 1024 2048 c3Env).2 ∧
    Event.losetupDetach "/dev/loop1" ∈
      (ThinPool.create "demo-pool" 100 1024 2048 c3Env).2 :=
  pool_create_post_allocation_failure_detaches_both "demo-pool" 100 1024 2048
    c3Env
    { device_path := "/dev/loop0",
      backing_file := "/tmp/demo-pool-metadata.img", should_cleanup := true }
    { device_path := "/dev/loop1",
      backing_file := "/tmp/demo-pool-data.img", should_cleanup := true }
    [Event.createFile "/tmp/demo-pool-metadata.img",
     Event.fallocate "/tmp/demo-pool-metadata.img" 104857600,
     Event.losetupFind,
     Event.losetupAttach "/dev/loop0" "/tmp/demo-pool-metadata.img",
     Event.blockdevGetSize64 "/dev/loop0"]
    [Event.createFile "/tmp/demo-pool-data.img",
     Event.fallocate "/tmp/demo-pool-data.img" 1073741824,
     Event.losetupFind,
     Event.losetupAttach "/dev/loop1" "/tmp/demo-pool-data.img",
     Event.blockdevGetSize64 "/dev/loop1"]
    RError.thinRestoreFailed
    ((ThinPool.create "demo-pool" 100 1024 2048 c3Env).2)
    rfl rfl rfl

/-- Structural invariants of any allocator run: every id handed out is at
least the starting counter and strictly below the final counter, the
counter never decreases, and the ids come out in strictly increasing
order. -/
theorem allocRun_invariants (ops : List AllocOp) :
    ∀ a : DeviceIdAllocator,
      (∀ i ∈ (allocRun a ops).2, a.next ≤ i) ∧
      (∀ i ∈ (allocRun a ops).2, i < (allocRun a ops).1.next) ∧
      a.next ≤ (allocRun a ops).1.next ∧
      List.Chain' (fun i j => i < j) (allocRun a ops).2 := by
  induction ops with
  | nil => intro a; simp [allocRun]
  | cons op ops ih =>
    intro a
    cases op with
    | release i =>
      have h := ih (a.release i)
      simpa [allocRun, DeviceIdAllocator.release] using h
    | alloc =>
      obtain ⟨hlb, hub, hmono, hchain⟩ :=
        ih { next := a.next + 1, live := a.next :: a.live }
      simp only [allocRun, DeviceIdAllocator.allocate] at *
      refine ⟨?_, ?_, ?_, ?_⟩
      · intro i hi
        rcases List.mem_cons.mp hi with rfl | hi
        · exact Nat.le_refl _
        · exact Nat.le_of_succ_le (hlb i hi)
      · intro i hi
        rcases List.mem_cons.mp hi with rfl | hi
        · exact Nat.lt_of_lt_of_le (Nat.lt_succ_self _) hmono
        · exact hub i hi
      · exact Nat.le_of_succ_le hmono
      · refine List.chain'_cons'.mpr ⟨?_, hchain⟩
        intro b hb
        exact Nat.lt_of_succ_le (hlb b (List.mem_of_mem_head? hb))

/-- Claim C4 (the DeviceIdAllocator is modelled from §4.3 of the spec,
since no allocator exists in src/): in any run of the allocator from its
initial state, the ids handed out are strictly increasing in allocation
order, hence pairwise distinct for the lifetime of the pool; and no id
handed out once — whether or not it was meanwhile released — is ever
handed out again by any continuation of the run, so a released id is
never reused within the allocator's process lifetime. -/
theorem allocator_monotone_distinct_never_reuses (ops more : List AllocOp) :
    List.Chain' (fun i j => i < j)
      (allocRun DeviceIdAllocator.init ops).2 ∧
    ((allocRun DeviceIdAllocator.init ops).2).Nodup ∧
    ∀ id, id ∈ (allocRun DeviceIdAllocator.init ops).2 →
      id ∉ (allocRun (allocRun DeviceIdAllocator.init ops).1 more).2 := by
  obtain ⟨hlb, hub, hmono, hchain⟩ :=
    allocRun_invariants ops DeviceIdAllocator.init
  refine ⟨hchain, ?_, ?_⟩
  · exact (List.chain'_iff_pairwise.mp hchain).imp fun h => Nat.ne_of_lt h
  · intro id hid hmem
    obtain ⟨hlb2, -, -, -⟩ :=
      allocRun_invariants more (allocRun DeviceIdAllocator.init ops).1
    have h1 := hub id hid
    have h2 := hlb2 id hmem
    omega

/-- Claim C4, witness: after allocating id 0 and releasing it, a further
allocation does not hand out 0 again. -/
theorem allocator_never_reuses_witness :
    0 ∉ (allocRun (allocRun DeviceIdAllocator.init
        [AllocOp.alloc, AllocOp.release 0]).1 [AllocOp.alloc]).2 :=
  (allocator_monotone_distinct_never_reuses
    [AllocOp.alloc, AllocOp.release 0] [AllocOp.alloc]).2.2 0 (by decide)

end DevMapper
